import Mathlib

/-!
Shallow embedding of `dash_functions.py` from the Cloud-Carbon-Dashboard
repository, together with theorems settling the specification claims.

Python's dynamically typed values (as far as this module manipulates them)
are modelled by the inductive type `Val`; Python dicts whose values the code
reads become association lists `List (String × Val)`; raised exceptions
become `Except String`; the HTTP transport and the file system become
explicit function parameters; calls to `st.error` are collected in a list of
error message strings; issued network requests are collected in a list so
that "performs no network call" is a provable statement.
-/

namespace CloudCarbon

/-- A dynamically typed Python value, restricted to the scalar shapes this
module manipulates (JSON scalars plus `None`). -/
inductive Val where
  | vNone : Val
  | vBool : Bool → Val
  | vInt : Int → Val
  | vFloat : ℚ → Val
  | vStr : String → Val
deriving DecidableEq, Repr

/-- Python `isinstance(x, int)` — in Python, `bool` is a subclass of `int`. -/
def Val.isInt : Val → Bool
  | .vInt _ => true
  | .vBool _ => true
  | _ => false

/-- Python `isinstance(x, str)`. -/
def Val.isStr : Val → Bool
  | .vStr _ => true
  | _ => false

/-- Python `isinstance(x, float)` — Python ints and bools are not floats. -/
def Val.isFloat : Val → Bool
  | .vFloat _ => true
  | _ => false

/-- Python `isinstance(x, (int, float))`. -/
def Val.isNumeric : Val → Bool
  | .vInt _ => true
  | .vFloat _ => true
  | .vBool _ => true
  | _ => false

/-- Numeric value of a Python number (`True == 1`, `False == 0`). -/
def Val.toRat : Val → ℚ
  | .vInt n => (n : ℚ)
  | .vFloat q => q
  | .vBool b => if b then 1 else 0
  | _ => 0

/-- A Python dict with string keys, as this module builds and reads them. -/
abbrev Item : Type := List (String × Val)

/-- Python `d.get(key, default)` on a Python dict. -/
def dictGet (d : Item) (key : String) (default : Val) : Val :=
  match d with
  | [] => default
  | (k, v) :: rest => if k = key then v else dictGet rest key default

/-- Embeds `generate_vm_request_body(region, instance, duration, duration_unit,
vcpu_utilization)`: validates its arguments in the source's order and
returns the request-body dict; a failed check raises `ValueError`. -/
def generate_vm_request_body (region inst duration duration_unit vcpu_utilization : Val) :
    Except String Item :=
  if ¬ duration.isInt then
    .error "Duration must be an integer."
  else if ¬ region.isStr ∨ ¬ inst.isStr then
    .error "Region and instance must be strings."
  else if ¬ (duration_unit = .vStr "ms" ∨ duration_unit = .vStr "s" ∨ duration_unit = .vStr "m" ∨
      duration_unit = .vStr "h" ∨ duration_unit = .vStr "day" ∨ duration_unit = .vStr "year") then
    .error "Duration unit must be one of ms, s, m, h, day or year."
  else if ¬ vcpu_utilization.isFloat then
    .error "vCPU utilization must be a float."
  else if ¬ (0 ≤ vcpu_utilization.toRat ∧ vcpu_utilization.toRat ≤ 1) then
    .error "vCPU utilization must be between 0 and 1."
  else
    .ok [("region", region), ("instance", inst), ("duration", duration),
         ("duration_unit", duration_unit), ("average_vcpu_utilization", vcpu_utilization)]

/-- The display-label normalization applied to `storage_type` after
validation: `"Solid-state Drive" → "ssd"`, `"Hard Disk Drive" → "hdd"`,
anything else unchanged. -/
def normalizeStorageType (v : Val) : Val :=
  if v = .vStr "Solid-state Drive" then .vStr "ssd"
  else if v = .vStr "Hard Disk Drive" then .vStr "hdd"
  else v

/-- Embeds `generate_storage_request_body(region, storage_type, duration,
data_stored, data_unit, duration_unit)`. -/
def generate_storage_request_body (region storage_type duration data_stored data_unit
    duration_unit : Val) : Except String Item :=
  if ¬ duration.isInt then
    .error "Duration must be an integer."
  else if ¬ region.isStr ∨ ¬ storage_type.isStr then
    .error "Region and storage type must be strings."
  else if ¬ (duration_unit = .vStr "ms" ∨ duration_unit = .vStr "s" ∨ duration_unit = .vStr "m" ∨
      duration_unit = .vStr "h" ∨ duration_unit = .vStr "day" ∨ duration_unit = .vStr "year") then
    .error "Duration unit must be one of ms, s, m, h, day or year."
  else if ¬ data_stored.isFloat then
    .error "Data stored must be a float."
  else if ¬ (data_unit = .vStr "MB" ∨ data_unit = .vStr "GB" ∨ data_unit = .vStr "TB") then
    .error "Data unit must be one of MB, GB, TB."
  else
    .ok [("region", region), ("storage_type", normalizeStorageType storage_type),
         ("data", data_stored), ("data_unit", data_unit), ("duration", duration),
         ("duration_unit", duration_unit)]

/-- Per-provider block of the metadata catalog. -/
structure ProviderMeta where
  regions : List String
  virtual_machine_instances : List String
deriving DecidableEq, Repr

/-- The metadata catalog: `{"cloud_providers": {...}}`. -/
structure Metadata where
  cloud_providers : List (String × ProviderMeta)
deriving DecidableEq, Repr

/-- Possible outcomes of opening and JSON-decoding a file: the two failure
shapes `read_metadata` handles (`FileNotFoundError`, `json.JSONDecodeError`)
plus any other exception `open` or `json.load` can raise — for example
`PermissionError`, `IsADirectoryError` or `UnicodeDecodeError` — which the
source's `except` clauses do not catch. -/
inductive FileOutcome where
  | notFound : FileOutcome
  | badJson : FileOutcome
  | otherError : String → FileOutcome
  | ok : Metadata → FileOutcome
deriving DecidableEq, Repr

/-- The built-in fallback catalog returned by `read_metadata` on failure. -/
def defaultMetadata : Metadata :=
  { cloud_providers :=
      [("aws", { regions := ["us-east-1"], virtual_machine_instances := ["t2.micro"] }),
       ("azure", { regions := ["eastus"], virtual_machine_instances := ["Standard_B1s"] }),
       ("gcp", { regions := ["us-central1"], virtual_machine_instances := ["e2-micro"] })] }

/-- Embeds `read_metadata(filepath)`: the file system is passed explicitly as a map
from path to outcome; returns the parsed catalog, or on one of the two
handled failures reports the cause via `st.error` (second component) and
returns the default catalog. Any other exception is not caught by the
source's `except FileNotFoundError` / `except json.JSONDecodeError` clauses
and propagates (`.error`). -/
def read_metadata (fs : String → FileOutcome) (filepath : String) :
    Except String (Metadata × List String) :=
  match fs filepath with
  | .ok metadata => .ok (metadata, [])
  | .notFound => .ok (defaultMetadata, ["Metadata file not found: " ++ filepath])
  | .badJson => .ok (defaultMetadata, ["Invalid JSON in metadata file: " ++ filepath])
  | .otherError e => .error e

/-- Result of one `requests.post(...)` call as `send_batch_request` observes
it: a decoded JSON body, an HTTP error status raised by
`response.raise_for_status()`, a `requests.exceptions.ConnectionError`, or
any other exception (read timeouts included). -/
inductive HttpOutcome where
  | success : Item → HttpOutcome
  | httpError : Nat → HttpOutcome
  | connectionError : String → HttpOutcome
  | unexpectedError : String → HttpOutcome
deriving DecidableEq, Repr

/-- The `st.error` message emitted for an HTTP error response. -/
def httpErrorMessage (status : Nat) : String :=
  if status = 403 then
    "Forbidden: Check your API key permissions for cloud computing endpoints."
  else
    "HTTP error: status " ++ toString status

/-- How `send_batch_request` ends: a raised `ValueError`, or a returned
`{"results": ...}` dict (carrying the results list). -/
inductive SBROutcome where
  | raised : String → SBROutcome
  | returned : List Item → SBROutcome
deriving DecidableEq, Repr

/-- One run of `send_batch_request`: its outcome, the `st.error` messages
emitted in order, and the network requests issued in order. -/
structure SBRRun where
  outcome : SBROutcome
  errors : List String
  calls : List Item
deriving DecidableEq, Repr

/-- Python truthiness of `os.environ.get('API_KEY')`: `None` and the empty
string are falsy. -/
def credTruthy : Option String → Bool
  | none => false
  | some s => !s.isEmpty

/-- The `for body in body_array` loop of `send_batch_request`, with the
accumulated results / error messages / issued calls threaded through. On a
connection-level or unexpected failure it returns an empty results list at
once, as the source's `return {"results": []}` does. -/
def sbrLoop (t : Item → HttpOutcome) (bodies : List Item) (results : List Item)
    (errors : List String) (calls : List Item) : List Item × List String × List Item :=
  match bodies with
  | [] => (results, errors, calls)
  | body :: rest =>
    match t body with
    | .success json => sbrLoop t rest (results ++ [json]) errors (calls ++ [body])
    | .httpError status =>
        sbrLoop t rest results (errors ++ [httpErrorMessage status]) (calls ++ [body])
    | .connectionError m =>
        ([], errors ++ ["Network failure: " ++ m,
          "Verify your internet connection and DNS configuration"], calls ++ [body])
    | .unexpectedError m =>
        ([], errors ++ ["Unexpected error: " ++ m], calls ++ [body])

/-- Embeds `send_batch_request(provider, body_array, endpoint)`: validates the
provider (raising `ValueError` otherwise), checks the `API_KEY` credential
(reporting and returning `{"results": []}` when unset), then posts each body
in order with the per-item failure policy of `sbrLoop`. The credential and
the HTTP transport are explicit parameters. -/
def send_batch_request (provider : String) (body_array : List Item) (endpoint : String)
    (api_key : Option String) (t : Item → HttpOutcome) : SBRRun :=
  if ¬ (provider = "aws" ∨ provider = "azure" ∨ provider = "gcp") then
    { outcome := .raised ("Invalid provider: " ++ provider), errors := [], calls := [] }
  else if ¬ credTruthy api_key then
    { outcome := .returned [], errors := ["API_KEY environment variable not set."], calls := [] }
  else
    let run := sbrLoop t body_array [] [] []
    { outcome := .returned run.1, errors := run.2.1, calls := run.2.2 }

/-- Embeds `format_batch_response(response, calculation_type)`: sums the CO2e field
(`total_co2e` for vm, `co2e` otherwise) over `response["results"]`, adding
only values that are Python numbers; a missing key defaults to `0`. The
argument is the `"results"` list the response dict always carries. -/
def format_batch_response (results : List Item) (calculation_type : String) : ℚ :=
  let co2_key := if calculation_type = "vm" then "total_co2e" else "co2e"
  results.foldl (fun overall_co2e item =>
    let co2e_value := dictGet item co2_key (.vInt 0)
    if co2e_value.isNumeric then overall_co2e + co2e_value.toRat else overall_co2e) 0

/-- One provider's block of `calculate`: skip an empty (falsy) batch with a
zero contribution and no call; otherwise run `send_batch_request` and fold
the response. A raised exception propagates as `.error`. Returns the
contribution together with the calls made and errors reported. -/
def providerTotal (p : String) (batch : List Item) (endpoint calculation_type : String)
    (api_key : Option String) (t : Item → HttpOutcome) :
    Except String (ℚ × List Item × List String) :=
  if batch.isEmpty then .ok (0, [], [])
  else
    match (send_batch_request p batch endpoint api_key t).outcome with
    | .raised m => .error m
    | .returned rs => .ok (format_batch_response rs calculation_type,
        (send_batch_request p batch endpoint api_key t).calls,
        (send_batch_request p batch endpoint api_key t).errors)

/-- Embeds `calculate(calculation_type)`: reads the three per-provider batches from
the session state (a total map from key to list, absent keys mapping to
`[]`), dispatches one batch request per non-empty batch, and builds the
three-entry breakdown dict. Also returns the provider-tagged network calls
and the error messages, in order. -/
def calculate (calculation_type : String) (session : String → List Item)
    (api_key : Option String) (t : String → Item → HttpOutcome) :
    Except String (List (String × ℚ) × List (String × Item) × List String) :=
  let endpoint := if calculation_type = "vm" then "instance" else "storage"
  let aws_batch := session ("aws_" ++ calculation_type ++ "_batch")
  let azure_batch := session ("azure_" ++ calculation_type ++ "_batch")
  let gcp_batch := session ("gcp_" ++ calculation_type ++ "_batch")
  match providerTotal "aws" aws_batch endpoint calculation_type api_key (t "aws") with
  | .error m => .error m
  | .ok (aws_total, aws_calls, aws_errors) =>
    match providerTotal "azure" azure_batch endpoint calculation_type api_key (t "azure") with
    | .error m => .error m
    | .ok (azure_total, azure_calls, azure_errors) =>
      match providerTotal "gcp" gcp_batch endpoint calculation_type api_key (t "gcp") with
      | .error m => .error m
      | .ok (gcp_total, gcp_calls, gcp_errors) =>
        .ok ([("aws_" ++ calculation_type, aws_total),
              ("azure_" ++ calculation_type, azure_total),
              ("gcp_" ++ calculation_type, gcp_total)],
             aws_calls.map (fun b => ("aws", b)) ++ azure_calls.map (fun b => ("azure", b)) ++
               gcp_calls.map (fun b => ("gcp", b)),
             aws_errors ++ azure_errors ++ gcp_errors)

/-- Embeds `convert_provider_name(provider)`: display name ↔ provider id; raises
`ValueError` on anything outside the six known strings. -/
def convert_provider_name (provider : String) : Except String String :=
  if provider = "Amazon Web Services" then .ok "aws"
  else if provider = "Microsoft Azure" then .ok "azure"
  else if provider = "Google Cloud Platform" then .ok "gcp"
  else if provider = "aws" then .ok "Amazon Web Services"
  else if provider = "azure" then .ok "Microsoft Azure"
  else if provider = "gcp" then .ok "Google Cloud Platform"
  else .error ("Invalid provider name: " ++ provider)

/-- The six strings `convert_provider_name` accepts. -/
def validProviderStrings : List String :=
  ["aws", "azure", "gcp", "Amazon Web Services", "Microsoft Azure", "Google Cloud Platform"]

/-- C9: `convert_provider_name` is an involutive bijection on the six valid
values — applying it twice is the identity there — and every input outside
the six values raises `ValueError` rather than returning a default. -/
theorem convert_provider_name_involutive_bijection (s : String) :
    (s ∈ validProviderStrings →
      (convert_provider_name s).bind convert_provider_name = Except.ok s) ∧
    (s ∉ validProviderStrings →
      convert_provider_name s = Except.error ("Invalid provider name: " ++ s)) := by
  constructor
  · intro hs
    fin_cases hs <;> rfl
  · intro hs
    simp only [validProviderStrings, List.mem_cons, List.not_mem_nil, or_false, not_or] at hs
    obtain ⟨h1, h2, h3, h4, h5, h6⟩ := hs
    simp [convert_provider_name, h1, h2, h3, h4, h5, h6]

/-- Witness for C9 at the concrete inputs `"aws"` and `"not-a-provider"`. -/
theorem convert_provider_name_involutive_bijection_witness :
    (convert_provider_name "aws").bind convert_provider_name = Except.ok "aws" ∧
    convert_provider_name "not-a-provider" =
      Except.error ("Invalid provider name: " ++ "not-a-provider") :=
  ⟨(convert_provider_name_involutive_bijection "aws").1 (by decide),
   (convert_provider_name_involutive_bijection "not-a-provider").2 (by decide)⟩

/-- Counterexample to C7: `read_metadata` does not recover from every read
failure. A read failure other than file-not-found — here a permission-denied
error from `open` — matches neither `except` clause and raises past the
boundary instead of yielding the default catalog. -/
theorem read_metadata_raises_on_unhandled_failure :
    read_metadata (fun _ => .otherError "PermissionError: Permission denied") "meta.json" =
      Except.error "PermissionError: Permission denied" := rfl

/-- C7 as amended: `read_metadata` recovers only from the two failures it
handles — file not found and malformed JSON — by reporting the cause and
returning the built-in default catalog, which covers exactly the three
providers with one region and one instance type each; a parsed resource is
returned as-is; any other read or parse failure (permission denied, path is
a directory, undecodable bytes) raises past the boundary. -/
theorem read_metadata_default_on_handled_failures (fs : String → FileOutcome)
    (filepath : String) :
    ((fs filepath = .notFound ∨ fs filepath = .badJson) →
      ∃ msg, read_metadata fs filepath = .ok (defaultMetadata, [msg])) ∧
    (∀ m, fs filepath = .ok m → read_metadata fs filepath = .ok (m, [])) ∧
    (∀ e, fs filepath = .otherError e → read_metadata fs filepath = .error e) ∧
    defaultMetadata.cloud_providers.map Prod.fst = ["aws", "azure", "gcp"] ∧
    ∀ p ∈ defaultMetadata.cloud_providers,
      p.2.regions.length = 1 ∧ p.2.virtual_machine_instances.length = 1 := by
  refine ⟨?_, ?_, ?_, by decide, by decide⟩
  · rintro (h | h) <;> exact ⟨_, by rw [read_metadata, h]⟩
  · intro m h
    rw [read_metadata, h]
  · intro e h
    rw [read_metadata, h]

/-- Witness for the amended C7: a missing file yields the default catalog
with the not-found report, and an unhandled failure propagates. -/
theorem read_metadata_default_on_handled_failures_witness :
    (∃ msg, read_metadata (fun _ => FileOutcome.notFound) "meta.json" =
      Except.ok (defaultMetadata, [msg])) ∧
    read_metadata (fun _ => FileOutcome.otherError "IsADirectoryError") "meta.json" =
      Except.error "IsADirectoryError" :=
  ⟨(read_metadata_default_on_handled_failures (fun _ => .notFound) "meta.json").1
      (Or.inl rfl),
   (read_metadata_default_on_handled_failures (fun _ => .otherError "IsADirectoryError")
      "meta.json").2.2.1 "IsADirectoryError" rfl⟩

/-- A fold that conditionally accumulates equals the starting value plus the
sum of the mapped contributions. -/
theorem foldl_cond_add_eq_sum (c : Item → Bool) (g : Item → ℚ) (l : List Item) (init : ℚ) :
    l.foldl (fun a x => if c x then a + g x else a) init =
      init + (l.map (fun x => if c x then g x else 0)).sum := by
  induction l generalizing init with
  | nil => simp
  | cons x xs ih =>
    simp only [List.foldl_cons, List.map_cons, List.sum_cons]
    by_cases hc : c x <;> simp only [hc, Bool.false_eq_true, if_true, if_false, ite_true,
      ite_false] <;> rw [ih] <;> ring

/-- C5: `format_batch_response` returns the sum, over all result items, of
the calculation kind's CO2e field (`total_co2e` for vm, `co2e` otherwise);
an item whose field is missing or not a Python number contributes `0`
without failing, and an empty result sequence sums to `0`. -/
theorem format_batch_response_is_sum (results : List Item) (calculation_type : String) :
    format_batch_response results calculation_type =
      (results.map (fun item =>
        if (dictGet item (if calculation_type = "vm" then "total_co2e" else "co2e")
            (.vInt 0)).isNumeric then
          (dictGet item (if calculation_type = "vm" then "total_co2e" else "co2e")
            (.vInt 0)).toRat
        else 0)).sum ∧
    format_batch_response [] calculation_type = 0 := by
  constructor
  · unfold format_batch_response
    rw [foldl_cond_add_eq_sum
      (fun item => (dictGet item (if calculation_type = "vm" then "total_co2e" else "co2e")
        (.vInt 0)).isNumeric)
      (fun item => (dictGet item (if calculation_type = "vm" then "total_co2e" else "co2e")
        (.vInt 0)).toRat)]
    simp
  · rfl

/-- Conjunction of the checks `generate_vm_request_body` performs. -/
def vmInputsValid (region inst duration duration_unit vcpu_utilization : Val) : Prop :=
  duration.isInt = true ∧ region.isStr = true ∧ inst.isStr = true ∧
  (duration_unit = Val.vStr "ms" ∨ duration_unit = Val.vStr "s" ∨ duration_unit = Val.vStr "m" ∨
    duration_unit = Val.vStr "h" ∨ duration_unit = Val.vStr "day" ∨
    duration_unit = Val.vStr "year") ∧
  vcpu_utilization.isFloat = true ∧
  0 ≤ vcpu_utilization.toRat ∧ vcpu_utilization.toRat ≤ 1

instance (region inst duration duration_unit vcpu_utilization : Val) :
    Decidable (vmInputsValid region inst duration duration_unit vcpu_utilization) := by
  unfold vmInputsValid
  infer_instance

/-- Conjunction of the checks `generate_storage_request_body` performs. -/
def storageInputsValid (region storage_type duration data_stored data_unit
    duration_unit : Val) : Prop :=
  duration.isInt = true ∧ region.isStr = true ∧ storage_type.isStr = true ∧
  (duration_unit = Val.vStr "ms" ∨ duration_unit = Val.vStr "s" ∨ duration_unit = Val.vStr "m" ∨
    duration_unit = Val.vStr "h" ∨ duration_unit = Val.vStr "day" ∨
    duration_unit = Val.vStr "year") ∧
  data_stored.isFloat = true ∧
  (data_unit = Val.vStr "MB" ∨ data_unit = Val.vStr "GB" ∨ data_unit = Val.vStr "TB")

instance (region storage_type duration data_stored data_unit duration_unit : Val) :
    Decidable (storageInputsValid region storage_type duration data_stored data_unit
      duration_unit) := by
  unfold storageInputsValid
  infer_instance

/-- C3: on valid inputs the builders return a record whose fields exactly
match the inputs, with the storage-type label normalization applied; on any
invalid input (non-integer duration, non-string region/instance/storage
type, unknown duration unit, non-float or out-of-range utilization,
non-float data, unknown data unit) they raise `ValueError` and produce no
partial object. -/
theorem generate_request_bodies_validate
    (region inst storage_type duration duration_unit vcpu_utilization data_stored
      data_unit : Val) :
    (vmInputsValid region inst duration duration_unit vcpu_utilization →
      generate_vm_request_body region inst duration duration_unit vcpu_utilization =
        Except.ok [("region", region), ("instance", inst), ("duration", duration),
          ("duration_unit", duration_unit), ("average_vcpu_utilization", vcpu_utilization)]) ∧
    (¬ vmInputsValid region inst duration duration_unit vcpu_utilization →
      ∃ m, generate_vm_request_body region inst duration duration_unit vcpu_utilization =
        Except.error m) ∧
    (storageInputsValid region storage_type duration data_stored data_unit duration_unit →
      generate_storage_request_body region storage_type duration data_stored data_unit
          duration_unit =
        Except.ok [("region", region), ("storage_type", normalizeStorageType storage_type),
          ("data", data_stored), ("data_unit", data_unit), ("duration", duration),
          ("duration_unit", duration_unit)]) ∧
    (¬ storageInputsValid region storage_type duration data_stored data_unit duration_unit →
      ∃ m, generate_storage_request_body region storage_type duration data_stored data_unit
        duration_unit = Except.error m) := by
  refine ⟨?_, ?_, ?_, ?_⟩
  · rintro ⟨h1, h2, h3, h4, h5, h6, h7⟩
    unfold generate_vm_request_body
    rw [if_neg (by simp [h1]), if_neg (by simp [h2, h3]), if_neg (not_not_intro h4),
      if_neg (by simp [h5]), if_neg (not_not_intro ⟨h6, h7⟩)]
  · intro h
    unfold generate_vm_request_body
    split_ifs with e1 e2 e3 e4 e5 <;>
      first
        | exact ⟨_, rfl⟩
        | (exfalso
           push_neg at e2
           exact h ⟨e1, by simpa using e2.1, by simpa using e2.2, e3, e4, e5.1, e5.2⟩)
  · rintro ⟨h1, h2, h3, h4, h5, h6⟩
    unfold generate_storage_request_body
    rw [if_neg (by simp [h1]), if_neg (by simp [h2, h3]), if_neg (not_not_intro h4),
      if_neg (by simp [h5]), if_neg (not_not_intro h6)]
  · intro h
    unfold generate_storage_request_body
    split_ifs with e1 e2 e3 e4 e5 <;>
      first
        | exact ⟨_, rfl⟩
        | (exfalso
           push_neg at e2
           exact h ⟨e1, by simpa using e2.1, by simpa using e2.2, e3, e4, e5⟩)

/-- Witness for C3 at concrete valid and invalid inputs. -/
theorem generate_request_bodies_validate_witness :
    generate_vm_request_body (.vStr "us-east-1") (.vStr "t2.micro") (.vInt 10) (.vStr "h")
        (.vFloat (1/2)) =
      Except.ok [("region", .vStr "us-east-1"), ("instance", .vStr "t2.micro"),
        ("duration", .vInt 10), ("duration_unit", .vStr "h"),
        ("average_vcpu_utilization", .vFloat (1/2))] ∧
    (∃ m, generate_vm_request_body (.vStr "r") (.vStr "i") (.vStr "ten") (.vStr "h")
      (.vFloat (1/2)) = Except.error m) ∧
    generate_storage_request_body (.vStr "eastus") (.vStr "Solid-state Drive") (.vInt 2)
        (.vFloat 3) (.vStr "GB") (.vStr "h") =
      Except.ok [("region", .vStr "eastus"),
        ("storage_type", normalizeStorageType (.vStr "Solid-state Drive")),
        ("data", .vFloat 3), ("data_unit", .vStr "GB"), ("duration", .vInt 2),
        ("duration_unit", .vStr "h")] ∧
    (∃ m, generate_storage_request_body (.vStr "eastus") (.vStr "ssd") (.vInt 2) (.vFloat 3)
      (.vStr "PB") (.vStr "h") = Except.error m) :=
  ⟨(generate_request_bodies_validate (.vStr "us-east-1") (.vStr "t2.micro") (.vStr "x")
      (.vInt 10) (.vStr "h") (.vFloat (1/2)) (.vFloat 1) (.vStr "GB")).1
      (by norm_num [vmInputsValid, Val.isInt, Val.isStr, Val.isFloat, Val.toRat]),
   (generate_request_bodies_validate (.vStr "r") (.vStr "i") (.vStr "x") (.vStr "ten")
      (.vStr "h") (.vFloat (1/2)) (.vFloat 1) (.vStr "GB")).2.1
      (by simp [vmInputsValid, Val.isInt]),
   (generate_request_bodies_validate (.vStr "eastus") (.vStr "i")
      (.vStr "Solid-state Drive") (.vInt 2) (.vStr "h") (.vFloat (1/2)) (.vFloat 3)
      (.vStr "GB")).2.2.1
      (by norm_num [storageInputsValid, Val.isInt, Val.isStr, Val.isFloat]),
   (generate_request_bodies_validate (.vStr "eastus") (.vStr "i") (.vStr "ssd") (.vInt 2)
      (.vStr "h") (.vFloat (1/2)) (.vFloat 3) (.vStr "PB")).2.2.2
      (by simp [storageInputsValid, Val.isInt, Val.isStr, Val.isFloat])⟩

/-- Counterexample to C8: `generate_vm_request_body` accepts a zero
duration, and `generate_storage_request_body` accepts a negative duration
and a negative data volume — positivity is never checked, so a successfully
returned request body can carry a non-positive duration and non-positive
data. -/
theorem generated_bodies_allow_nonpositive_values :
    generate_vm_request_body (.vStr "us-east-1") (.vStr "t2.micro") (.vInt 0) (.vStr "h")
        (.vFloat (1/2)) =
      Except.ok [("region", .vStr "us-east-1"), ("instance", .vStr "t2.micro"),
        ("duration", .vInt 0), ("duration_unit", .vStr "h"),
        ("average_vcpu_utilization", .vFloat (1/2))] ∧
    generate_storage_request_body (.vStr "eastus") (.vStr "ssd") (.vInt (-1))
        (.vFloat (-2)) (.vStr "GB") (.vStr "h") =
      Except.ok [("region", .vStr "eastus"), ("storage_type", .vStr "ssd"),
        ("data", .vFloat (-2)), ("data_unit", .vStr "GB"), ("duration", .vInt (-1)),
        ("duration_unit", .vStr "h")] := by
  refine ⟨?_, ?_⟩ <;>
    norm_num [generate_vm_request_body, generate_storage_request_body, normalizeStorageType,
      Val.isInt, Val.isStr, Val.isFloat, Val.toRat] <;>
    decide

/-- C8 as amended: every body successfully returned by
`generate_vm_request_body` carries the validated Python-integer duration,
and every body successfully returned by `generate_storage_request_body`
carries the validated Python-float data volume and Python-integer duration;
positivity of these values is not checked. -/
theorem generated_bodies_numeric_fields
    (region inst storage_type duration duration_unit vcpu_utilization data_stored
      data_unit : Val) :
    (∀ body, generate_vm_request_body region inst duration duration_unit vcpu_utilization =
        Except.ok body →
      duration.isInt = true ∧
        body = [("region", region), ("instance", inst), ("duration", duration),
          ("duration_unit", duration_unit),
          ("average_vcpu_utilization", vcpu_utilization)]) ∧
    (∀ body, generate_storage_request_body region storage_type duration data_stored data_unit
        duration_unit = Except.ok body →
      duration.isInt = true ∧ data_stored.isFloat = true ∧
        body = [("region", region), ("storage_type", normalizeStorageType storage_type),
          ("data", data_stored), ("data_unit", data_unit), ("duration", duration),
          ("duration_unit", duration_unit)]) := by
  constructor
  · intro body h
    unfold generate_vm_request_body at h
    split_ifs at h with e1 e2 e3 e4 e5 <;>
      first
        | exact Except.noConfusion h
        | (injection h with h2; exact ⟨e1, h2.symm⟩)
  · intro body h
    unfold generate_storage_request_body at h
    split_ifs at h with e1 e2 e3 e4 e5 <;>
      first
        | exact Except.noConfusion h
        | (injection h with h2; exact ⟨e1, e4, h2.symm⟩)

/-- Witness for the amended C8 at a concrete input. -/
theorem generated_bodies_numeric_fields_witness :
    Val.isInt (.vInt 7) = true ∧
      [("region", Val.vStr "r"), ("instance", Val.vStr "i"), ("duration", Val.vInt 7),
        ("duration_unit", Val.vStr "h"), ("average_vcpu_utilization", Val.vFloat (1/2))] =
      [("region", Val.vStr "r"), ("instance", Val.vStr "i"), ("duration", Val.vInt 7),
        ("duration_unit", Val.vStr "h"), ("average_vcpu_utilization", Val.vFloat (1/2))] :=
  (generated_bodies_numeric_fields (.vStr "r") (.vStr "i") (.vStr "s") (.vInt 7) (.vStr "h")
    (.vFloat (1/2)) (.vFloat 1) (.vStr "GB")).1 _
    (by norm_num [generate_vm_request_body, Val.isInt, Val.isStr, Val.isFloat, Val.toRat])

/-- Whether an HTTP outcome aborts the whole batch in `send_batch_request`
(a connection-level failure or any unclassified exception). -/
def HttpOutcome.aborts : HttpOutcome → Bool
  | .connectionError _ => true
  | .unexpectedError _ => true
  | _ => false

/-- The decoded JSON body of a successful call, `none` otherwise. -/
def HttpOutcome.json : HttpOutcome → Option Item
  | .success j => some j
  | _ => none

/-- One step of the loop on a successful call. -/
theorem sbrLoop_cons_success (t : Item → HttpOutcome) (body : Item) (rest results : List Item)
    (errors : List String) (calls : List Item) (j : Item) (ht : t body = .success j) :
    sbrLoop t (body :: rest) results errors calls =
      sbrLoop t rest (results ++ [j]) errors (calls ++ [body]) := by
  rw [sbrLoop, ht]

/-- One step of the loop on an HTTP error response. -/
theorem sbrLoop_cons_httpError (t : Item → HttpOutcome) (body : Item) (rest results : List Item)
    (errors : List String) (calls : List Item) (s : Nat) (ht : t body = .httpError s) :
    sbrLoop t (body :: rest) results errors calls =
      sbrLoop t rest results (errors ++ [httpErrorMessage s]) (calls ++ [body]) := by
  rw [sbrLoop, ht]

/-- When no item of the batch aborts, the loop of `send_batch_request`
collects exactly the successful responses in order (HTTP-error items are
skipped) and posts every body. -/
theorem sbrLoop_no_abort (t : Item → HttpOutcome) (bodies : List Item)
    (h : ∀ b ∈ bodies, (t b).aborts = false) (results : List Item) (errors : List String)
    (calls : List Item) :
    (sbrLoop t bodies results errors calls).1 =
      results ++ bodies.filterMap (fun b => (t b).json) ∧
    (sbrLoop t bodies results errors calls).2.2 = calls ++ bodies := by
  induction bodies generalizing results errors calls with
  | nil => simp [sbrLoop]
  | cons b rest ih =>
    have hb : (t b).aborts = false := h b (List.mem_cons_self b rest)
    have hrest : ∀ x ∈ rest, (t x).aborts = false := fun x hx => h x (List.mem_cons_of_mem b hx)
    cases ht : t b with
    | success j =>
      rw [sbrLoop_cons_success t b rest results errors calls j ht]
      obtain ⟨ih1, ih2⟩ := ih hrest (results ++ [j]) errors (calls ++ [b])
      refine ⟨?_, ?_⟩
      · rw [ih1, List.filterMap_cons]
        simp [HttpOutcome.json, ht]
      · rw [ih2]
        simp
    | httpError s =>
      rw [sbrLoop_cons_httpError t b rest results errors calls s ht]
      obtain ⟨ih1, ih2⟩ := ih hrest results (errors ++ [httpErrorMessage s]) (calls ++ [b])
      refine ⟨?_, ?_⟩
      · rw [ih1, List.filterMap_cons]
        simp [HttpOutcome.json, ht]
      · rw [ih2]
        simp
    | connectionError m => rw [ht] at hb; simp [HttpOutcome.aborts] at hb
    | unexpectedError m => rw [ht] at hb; simp [HttpOutcome.aborts] at hb

/-- When the first aborting item is reached, the loop of
`send_batch_request` returns an empty results list at once — the collected
results are discarded and the remaining bodies are never posted. -/
theorem sbrLoop_abort (t : Item → HttpOutcome) (pre : List Item) (b : Item) (post : List Item)
    (hpre : ∀ x ∈ pre, (t x).aborts = false) (hb : (t b).aborts = true)
    (results : List Item) (errors : List String) (calls : List Item) :
    (sbrLoop t (pre ++ b :: post) results errors calls).1 = [] ∧
    (sbrLoop t (pre ++ b :: post) results errors calls).2.2 = calls ++ pre ++ [b] := by
  induction pre generalizing results errors calls with
  | nil =>
    cases ht : t b with
    | success j => rw [ht] at hb; simp [HttpOutcome.aborts] at hb
    | httpError s => rw [ht] at hb; simp [HttpOutcome.aborts] at hb
    | connectionError m => simp [sbrLoop, ht]
    | unexpectedError m => simp [sbrLoop, ht]
  | cons x xs ih =>
    have hx : (t x).aborts = false := hpre x (List.mem_cons_self x xs)
    have hxs : ∀ y ∈ xs, (t y).aborts = false := fun y hy => hpre y (List.mem_cons_of_mem x hy)
    cases ht : t x with
    | success j =>
      rw [List.cons_append,
        sbrLoop_cons_success t x (xs ++ b :: post) results errors calls j ht]
      obtain ⟨ih1, ih2⟩ := ih hxs (results ++ [j]) errors (calls ++ [x])
      refine ⟨ih1, ?_⟩
      rw [ih2]
      simp
    | httpError s =>
      rw [List.cons_append,
        sbrLoop_cons_httpError t x (xs ++ b :: post) results errors calls s ht]
      obtain ⟨ih1, ih2⟩ := ih hxs results (errors ++ [httpErrorMessage s]) (calls ++ [x])
      refine ⟨ih1, ?_⟩
      rw [ih2]
      simp
    | connectionError m => rw [ht] at hx; simp [HttpOutcome.aborts] at hx
    | unexpectedError m => rw [ht] at hx; simp [HttpOutcome.aborts] at hx

/-- Unfolding of `send_batch_request` for a valid provider and a configured
credential: the loop runs from empty accumulators. -/
theorem send_batch_request_runs (provider : String) (bodies : List Item) (endpoint : String)
    (api_key : Option String) (t : Item → HttpOutcome)
    (hp : provider = "aws" ∨ provider = "azure" ∨ provider = "gcp")
    (hk : credTruthy api_key = true) :
    send_batch_request provider bodies endpoint api_key t =
      { outcome := .returned (sbrLoop t bodies [] [] []).1,
        errors := (sbrLoop t bodies [] [] []).2.1,
        calls := (sbrLoop t bodies [] [] []).2.2 } := by
  unfold send_batch_request
  rw [if_neg (not_not_intro hp), if_neg (by simp [hk])]

/-- C1: with a valid provider and a configured credential, an item whose
call yields an HTTP error response is omitted from the result sequence and
processing continues (the results are exactly the successful items, every
body is posted); the first item whose call yields a connection-level or
unexpected failure makes the whole call return an empty result sequence
immediately — collected results are discarded and later items are never
posted. -/
theorem send_batch_request_failure_policy (provider : String) (bodies : List Item)
    (endpoint : String) (api_key : Option String) (t : Item → HttpOutcome)
    (hp : provider = "aws" ∨ provider = "azure" ∨ provider = "gcp")
    (hk : credTruthy api_key = true) :
    ((∀ b ∈ bodies, (t b).aborts = false) →
      (send_batch_request provider bodies endpoint api_key t).outcome =
        .returned (bodies.filterMap (fun b => (t b).json)) ∧
      (send_batch_request provider bodies endpoint api_key t).calls = bodies) ∧
    (∀ pre b post, bodies = pre ++ b :: post → (∀ x ∈ pre, (t x).aborts = false) →
      (t b).aborts = true →
      (send_batch_request provider bodies endpoint api_key t).outcome = .returned [] ∧
      (send_batch_request provider bodies endpoint api_key t).calls = pre ++ [b]) := by
  constructor
  · intro h
    obtain ⟨h1, h2⟩ := sbrLoop_no_abort t bodies h [] [] []
    rw [send_batch_request_runs provider bodies endpoint api_key t hp hk]
    simp [h1, h2]
  · intro pre b post hb hpre habort
    subst hb
    obtain ⟨h1, h2⟩ := sbrLoop_abort t pre b post hpre habort [] [] []
    rw [send_batch_request_runs provider (pre ++ b :: post) endpoint api_key t hp hk]
    simp [h1, h2]

/-- Witness for C1: a two-item batch where the first item gets an HTTP 403
and the second succeeds (skip and continue), and a three-item batch whose
second item hits a connection failure (abort, empty results, third item
never posted). -/
theorem send_batch_request_failure_policy_witness :
    ((send_batch_request "aws" [[("duration", Val.vInt 1)], [("duration", Val.vInt 2)]]
        "instance" (some "key")
        (fun b => if b = [("duration", Val.vInt 1)] then .httpError 403
          else .success [("total_co2e", Val.vFloat 5)])).outcome =
      .returned [[("total_co2e", Val.vFloat 5)]]) ∧
    ((send_batch_request "aws"
        [[("duration", Val.vInt 1)], [("duration", Val.vInt 2)], [("duration", Val.vInt 3)]]
        "instance" (some "key")
        (fun b => if b = [("duration", Val.vInt 1)] then .success [("total_co2e", Val.vFloat 5)]
          else if b = [("duration", Val.vInt 2)] then .connectionError "down"
          else .success [("total_co2e", Val.vFloat 7)])).outcome = .returned [] ∧
      (send_batch_request "aws"
        [[("duration", Val.vInt 1)], [("duration", Val.vInt 2)], [("duration", Val.vInt 3)]]
        "instance" (some "key")
        (fun b => if b = [("duration", Val.vInt 1)] then .success [("total_co2e", Val.vFloat 5)]
          else if b = [("duration", Val.vInt 2)] then .connectionError "down"
          else .success [("total_co2e", Val.vFloat 7)])).calls =
        [[("duration", Val.vInt 1)], [("duration", Val.vInt 2)]]) := by
  constructor
  · have h := (send_batch_request_failure_policy "aws"
      [[("duration", Val.vInt 1)], [("duration", Val.vInt 2)]] "instance" (some "key")
      (fun b => if b = [("duration", Val.vInt 1)] then .httpError 403
        else .success [("total_co2e", Val.vFloat 5)])
      (Or.inl rfl) (by decide)).1 (by decide)
    rw [h.1]
    simp [HttpOutcome.json]
  · exact (send_batch_request_failure_policy "aws"
      [[("duration", Val.vInt 1)], [("duration", Val.vInt 2)], [("duration", Val.vInt 3)]]
      "instance" (some "key")
      (fun b => if b = [("duration", Val.vInt 1)] then .success [("total_co2e", Val.vFloat 5)]
        else if b = [("duration", Val.vInt 2)] then .connectionError "down"
        else .success [("total_co2e", Val.vFloat 7)])
      (Or.inl rfl) (by decide)).2
      [[("duration", Val.vInt 1)]] [("duration", Val.vInt 2)] [[("duration", Val.vInt 3)]]
      (by decide) (by decide) (by decide)

/-- C2: for every valid provider, batch and endpoint, when no API
credential is configured `send_batch_request` reports the
missing-credential error and returns `{"results": []}` without issuing any
network call. -/
theorem send_batch_request_missing_credential (provider : String) (bodies : List Item)
    (endpoint : String) (t : Item → HttpOutcome)
    (hp : provider = "aws" ∨ provider = "azure" ∨ provider = "gcp") :
    send_batch_request provider bodies endpoint none t =
      { outcome := .returned [], errors := ["API_KEY environment variable not set."],
        calls := [] } := by
  unfold send_batch_request
  rw [if_neg (not_not_intro hp), if_pos (by simp [credTruthy])]

/-- Witness for C2 at a concrete batch. -/
theorem send_batch_request_missing_credential_witness :
    send_batch_request "gcp" [[("duration", Val.vInt 1)]] "storage" none
        (fun _ => .success [("co2e", Val.vFloat 1)]) =
      { outcome := .returned [], errors := ["API_KEY environment variable not set."],
        calls := [] } :=
  send_batch_request_missing_credential "gcp" [[("duration", Val.vInt 1)]] "storage"
    (fun _ => .success [("co2e", Val.vFloat 1)]) (Or.inr (Or.inr rfl))

/-- C10: for every provider outside {aws, azure, gcp}, every batch, every
endpoint and every credential state, `send_batch_request` raises
`ValueError` at once — no credential is consulted (the result is the same
for every `api_key`), no error is reported via the UI, and no network call
is issued. -/
theorem send_batch_request_invalid_provider (provider : String) (bodies : List Item)
    (endpoint : String) (api_key : Option String) (t : Item → HttpOutcome)
    (hp : ¬ (provider = "aws" ∨ provider = "azure" ∨ provider = "gcp")) :
    send_batch_request provider bodies endpoint api_key t =
      { outcome := .raised ("Invalid provider: " ++ provider), errors := [], calls := [] } := by
  unfold send_batch_request
  rw [if_pos (by simpa using hp)]

/-- Witness for C10 at a concrete invalid provider. -/
theorem send_batch_request_invalid_provider_witness :
    send_batch_request "Amazon Web Services" [[("duration", Val.vInt 1)]] "instance"
        (some "key") (fun _ => .success []) =
      { outcome := .raised ("Invalid provider: " ++ "Amazon Web Services"), errors := [],
        calls := [] } :=
  send_batch_request_invalid_provider "Amazon Web Services" [[("duration", Val.vInt 1)]]
    "instance" (some "key") (fun _ => .success []) (by decide)

/-- For a valid provider, `send_batch_request` never raises: it returns a
`{"results": ...}` dict. -/
theorem send_batch_request_not_raised (provider : String) (bodies : List Item)
    (endpoint : String) (api_key : Option String) (t : Item → HttpOutcome)
    (hp : provider = "aws" ∨ provider = "azure" ∨ provider = "gcp") :
    ∃ rs, (send_batch_request provider bodies endpoint api_key t).outcome = .returned rs := by
  unfold send_batch_request
  rw [if_neg (not_not_intro hp)]
  by_cases hk : credTruthy api_key = true
  · rw [if_neg (by simp [hk])]
    exact ⟨_, rfl⟩
  · rw [if_pos (by simpa using hk)]
    exact ⟨_, rfl⟩

/-- A provider with an empty batch contributes `0` without any network call
and without any reported error. -/
theorem providerTotal_empty (p endpoint calculation_type : String) (api_key : Option String)
    (t : Item → HttpOutcome) :
    providerTotal p [] endpoint calculation_type api_key t = .ok (0, [], []) := rfl

/-- For a valid provider, `providerTotal` succeeds. -/
theorem providerTotal_ok (p : String) (batch : List Item) (endpoint calculation_type : String)
    (api_key : Option String) (t : Item → HttpOutcome)
    (hp : p = "aws" ∨ p = "azure" ∨ p = "gcp") :
    ∃ q cs es, providerTotal p batch endpoint calculation_type api_key t = .ok (q, cs, es) := by
  by_cases hb : batch.isEmpty
  · refine ⟨0, [], [], ?_⟩
    unfold providerTotal
    rw [if_pos hb]
  · obtain ⟨rs, hrs⟩ := send_batch_request_not_raised p batch endpoint api_key t hp
    refine ⟨format_batch_response rs calculation_type,
      (send_batch_request p batch endpoint api_key t).calls,
      (send_batch_request p batch endpoint api_key t).errors, ?_⟩
    unfold providerTotal
    rw [if_neg hb, hrs]

/-- A valid provider all of whose items get an HTTP error response (for
example a 403 on every item) contributes `0`: all items are skipped, the
result sequence is empty and its sum is `0`. -/
theorem providerTotal_httpError_zero (p : String) (batch : List Item)
    (endpoint calculation_type : String) (api_key : Option String) (t : Item → HttpOutcome)
    (hp : p = "aws" ∨ p = "azure" ∨ p = "gcp") (hk : credTruthy api_key = true)
    (h : ∀ b ∈ batch, ∃ s, t b = .httpError s) :
    ∃ cs es, providerTotal p batch endpoint calculation_type api_key t = .ok (0, cs, es) := by
  by_cases hb : batch.isEmpty
  · refine ⟨[], [], ?_⟩
    unfold providerTotal
    rw [if_pos hb]
  · have habort : ∀ b ∈ batch, (t b).aborts = false := by
      intro b hbm
      obtain ⟨s, hs⟩ := h b hbm
      simp [hs, HttpOutcome.aborts]
    have hjson : batch.filterMap (fun b => (t b).json) = [] := by
      rw [List.filterMap_eq_nil_iff]
      intro a ha
      obtain ⟨s, hs⟩ := h a ha
      simp [hs, HttpOutcome.json]
    obtain ⟨h1, _⟩ := sbrLoop_no_abort t batch habort [] [] []
    refine ⟨(sbrLoop t batch [] [] []).2.2, (sbrLoop t batch [] [] []).2.1, ?_⟩
    unfold providerTotal
    rw [if_neg hb, send_batch_request_runs p batch endpoint api_key t hp hk]
    simp only [h1, hjson, List.nil_append]
    rfl

/-- C4: for every calculation kind, `calculate` returns a mapping covering
all three providers for that kind; a provider whose batch is empty is
mapped to `0` and triggers no network call for it, and when all three
batches are empty the returned mapping is all-zero with zero network calls
issued. -/
theorem calculate_covers_providers_and_skips_empty (calculation_type : String)
    (session : String → List Item) (api_key : Option String)
    (t : String → Item → HttpOutcome) :
    (∃ a z g cs es, calculate calculation_type session api_key t =
      .ok ([("aws_" ++ calculation_type, a), ("azure_" ++ calculation_type, z),
        ("gcp_" ++ calculation_type, g)], cs, es)) ∧
    (session ("aws_" ++ calculation_type ++ "_batch") = [] →
      ∃ z g cs es, calculate calculation_type session api_key t =
        .ok ([("aws_" ++ calculation_type, 0), ("azure_" ++ calculation_type, z),
          ("gcp_" ++ calculation_type, g)], cs, es) ∧ ∀ c ∈ cs, c.1 ≠ "aws") ∧
    (session ("azure_" ++ calculation_type ++ "_batch") = [] →
      ∃ a g cs es, calculate calculation_type session api_key t =
        .ok ([("aws_" ++ calculation_type, a), ("azure_" ++ calculation_type, 0),
          ("gcp_" ++ calculation_type, g)], cs, es) ∧ ∀ c ∈ cs, c.1 ≠ "azure") ∧
    (session ("gcp_" ++ calculation_type ++ "_batch") = [] →
      ∃ a z cs es, calculate calculation_type session api_key t =
        .ok ([("aws_" ++ calculation_type, a), ("azure_" ++ calculation_type, z),
          ("gcp_" ++ calculation_type, 0)], cs, es) ∧ ∀ c ∈ cs, c.1 ≠ "gcp") ∧
    (session ("aws_" ++ calculation_type ++ "_batch") = [] →
      session ("azure_" ++ calculation_type ++ "_batch") = [] →
      session ("gcp_" ++ calculation_type ++ "_batch") = [] →
      calculate calculation_type session api_key t =
        .ok ([("aws_" ++ calculation_type, 0), ("azure_" ++ calculation_type, 0),
          ("gcp_" ++ calculation_type, 0)], [], [])) := by
  obtain ⟨a, ca, ea, hA⟩ := providerTotal_ok "aws"
    (session ("aws_" ++ calculation_type ++ "_batch"))
    (if calculation_type = "vm" then "instance" else "storage") calculation_type api_key
    (t "aws") (Or.inl rfl)
  obtain ⟨z, cz, ez, hZ⟩ := providerTotal_ok "azure"
    (session ("azure_" ++ calculation_type ++ "_batch"))
    (if calculation_type = "vm" then "instance" else "storage") calculation_type api_key
    (t "azure") (Or.inr (Or.inl rfl))
  obtain ⟨g, cg, eg, hG⟩ := providerTotal_ok "gcp"
    (session ("gcp_" ++ calculation_type ++ "_batch"))
    (if calculation_type = "vm" then "instance" else "storage") calculation_type api_key
    (t "gcp") (Or.inr (Or.inr rfl))
  refine ⟨?_, ?_, ?_, ?_, ?_⟩
  · refine ⟨a, z, g, ca.map (fun b => ("aws", b)) ++ cz.map (fun b => ("azure", b)) ++
      cg.map (fun b => ("gcp", b)), ea ++ ez ++ eg, ?_⟩
    simp only [calculate]
    rw [hA, hZ, hG]
  · intro he
    refine ⟨z, g, cz.map (fun b => ("azure", b)) ++ cg.map (fun b => ("gcp", b)), ez ++ eg,
      ?_, ?_⟩
    · simp only [calculate, he]
      rw [providerTotal_empty, hZ, hG]
      simp
    · intro c hc
      simp only [List.mem_append, List.mem_map] at hc
      rcases hc with ⟨b, _, rfl⟩ | ⟨b, _, rfl⟩ <;> simp
  · intro he
    refine ⟨a, g, ca.map (fun b => ("aws", b)) ++ cg.map (fun b => ("gcp", b)), ea ++ eg,
      ?_, ?_⟩
    · simp only [calculate, he]
      rw [hA, providerTotal_empty, hG]
      simp
    · intro c hc
      simp only [List.mem_append, List.mem_map] at hc
      rcases hc with ⟨b, _, rfl⟩ | ⟨b, _, rfl⟩ <;> simp
  · intro he
    refine ⟨a, z, ca.map (fun b => ("aws", b)) ++ cz.map (fun b => ("azure", b)), ea ++ ez,
      ?_, ?_⟩
    · simp only [calculate, he]
      rw [hA, hZ, providerTotal_empty]
      simp
    · intro c hc
      simp only [List.mem_append, List.mem_map] at hc
      rcases hc with ⟨b, _, rfl⟩ | ⟨b, _, rfl⟩ <;> simp
  · intro h1 h2 h3
    simp only [calculate, h1, h2, h3]
    rw [providerTotal_empty, providerTotal_empty, providerTotal_empty]
    simp

/-- Witness for C4: with all three batches empty, `calculate` returns the
all-zero mapping and issues no network call. -/
theorem calculate_covers_providers_and_skips_empty_witness :
    calculate "vm" (fun _ => []) none (fun _ _ => .success []) =
      .ok ([("aws_" ++ "vm", 0), ("azure_" ++ "vm", 0), ("gcp_" ++ "vm", 0)], [], []) :=
  (calculate_covers_providers_and_skips_empty "vm" (fun _ => []) none
    (fun _ _ => .success [])).2.2.2.2 rfl rfl rfl

/-- C6: when the credential is configured and every item of the AWS batch
gets an HTTP 403 response, the breakdown maps AWS to `0` while the Azure
and GCP buckets still equal the values computed from their own responses
(their own `providerTotal` runs), unaffected by the AWS failure. -/
theorem calculate_provider_failure_isolated (calculation_type : String)
    (session : String → List Item) (api_key : Option String)
    (t : String → Item → HttpOutcome) (hk : credTruthy api_key = true)
    (h403 : ∀ b ∈ session ("aws_" ++ calculation_type ++ "_batch"),
      t "aws" b = .httpError 403) :
    ∃ z g czs ezs cgs egs cs es,
      providerTotal "azure" (session ("azure_" ++ calculation_type ++ "_batch"))
        (if calculation_type = "vm" then "instance" else "storage") calculation_type api_key
        (t "azure") = .ok (z, czs, ezs) ∧
      providerTotal "gcp" (session ("gcp_" ++ calculation_type ++ "_batch"))
        (if calculation_type = "vm" then "instance" else "storage") calculation_type api_key
        (t "gcp") = .ok (g, cgs, egs) ∧
      calculate calculation_type session api_key t =
        .ok ([("aws_" ++ calculation_type, 0), ("azure_" ++ calculation_type, z),
          ("gcp_" ++ calculation_type, g)], cs, es) := by
  obtain ⟨ca, ea, hA⟩ := providerTotal_httpError_zero "aws"
    (session ("aws_" ++ calculation_type ++ "_batch"))
    (if calculation_type = "vm" then "instance" else "storage") calculation_type api_key
    (t "aws") (Or.inl rfl) hk (fun b hb => ⟨403, h403 b hb⟩)
  obtain ⟨z, cz, ez, hZ⟩ := providerTotal_ok "azure"
    (session ("azure_" ++ calculation_type ++ "_batch"))
    (if calculation_type = "vm" then "instance" else "storage") calculation_type api_key
    (t "azure") (Or.inr (Or.inl rfl))
  obtain ⟨g, cg, eg, hG⟩ := providerTotal_ok "gcp"
    (session ("gcp_" ++ calculation_type ++ "_batch"))
    (if calculation_type = "vm" then "instance" else "storage") calculation_type api_key
    (t "gcp") (Or.inr (Or.inr rfl))
  refine ⟨z, g, cz, ez, cg, eg, ca.map (fun b => ("aws", b)) ++ cz.map (fun b => ("azure", b)) ++
    cg.map (fun b => ("gcp", b)), ea ++ ez ++ eg, hZ, hG, ?_⟩
  simp only [calculate]
  rw [hA, hZ, hG]

/-- Session state for the C6 witness: one pending AWS vm item and one
pending Azure vm item. -/
def witnessSession : String → List Item := fun key =>
  if key = "aws_vm_batch" then [[("duration", Val.vInt 1)]]
  else if key = "azure_vm_batch" then [[("duration", Val.vInt 2)]]
  else []

/-- Transport for the C6 witness: AWS answers 403 to everything, the other
providers answer successfully. -/
def witnessTransport : String → Item → HttpOutcome := fun provider _ =>
  if provider = "aws" then .httpError 403
  else .success [("total_co2e", Val.vInt 3)]

/-- Witness for C6: a 403-failing AWS batch next to a succeeding Azure
batch. -/
theorem calculate_provider_failure_isolated_witness :
    ∃ z g czs ezs cgs egs cs es,
      providerTotal "azure" (witnessSession ("azure_" ++ "vm" ++ "_batch"))
        (if "vm" = "vm" then "instance" else "storage") "vm" (some "key")
        (witnessTransport "azure") = .ok (z, czs, ezs) ∧
      providerTotal "gcp" (witnessSession ("gcp_" ++ "vm" ++ "_batch"))
        (if "vm" = "vm" then "instance" else "storage") "vm" (some "key")
        (witnessTransport "gcp") = .ok (g, cgs, egs) ∧
      calculate "vm" witnessSession (some "key") witnessTransport =
        .ok ([("aws_" ++ "vm", 0), ("azure_" ++ "vm", z), ("gcp_" ++ "vm", g)], cs, es) :=
  calculate_provider_failure_isolated "vm" witnessSession (some "key") witnessTransport
    (by decide) (by decide)

end CloudCarbon
